import Mathlib

/-!
Shallow embedding of `LCA_calculation.py` (class `SAF_LCA_Model`): a life
cycle assessment model for sustainable aviation fuel produced via direct air
capture, electrolysis and Fischer-Tropsch synthesis.  Python floats are
modelled by `ℚ`; the per-stage parameter dictionaries by `Option`-wrapped
records (an empty dict is `none`); raised exceptions by an explicit error
type threaded through `Except`.
-/

/-- Errors raised by the model: `missingData` for the required-stage check
(carries the pathway name), `unsupportedUnit` for a functional unit outside
MJ/kg/L (carries the unit string), `keyError` for a dictionary access on a
missing key. -/
inductive LcaError where
  | missingData (pathway : String)
  | unsupportedUnit (unit : String)
  | keyError (key : String)
deriving DecidableEq, Repr

/-- Feedstock production stage record (`set_feedstock_data`). -/
structure FeedstockData where
  feedstock_type : String
  ghg_emissions : ℚ
  energy_input : ℚ
  water_usage : ℚ
  land_use : ℚ
  yield_rate : ℚ
deriving DecidableEq, Repr

/-- Conversion process record (`set_conversion_data`); the syngas
requirement and CO:H2 ratio are optional keys. -/
structure ConversionData where
  technology : String
  efficiency : ℚ
  ghg_emissions : ℚ
  energy_input : ℚ
  water_usage : ℚ
  syngas_requirement : Option ℚ
  co_h2_ratio : Option ℚ
deriving DecidableEq, Repr

/-- Distribution stage record (`set_distribution_data`). -/
structure DistributionData where
  transport_distance : ℚ
  transport_mode : String
  ghg_emissions : ℚ
  energy_input : ℚ
deriving DecidableEq, Repr

/-- Use phase record (`set_use_phase_data`). -/
structure UsePhaseData where
  combustion_emissions : ℚ
  energy_density : ℚ
deriving DecidableEq, Repr

/-- Carbon capture record (`set_carbon_capture_data`). -/
structure CarbonCaptureData where
  capture_efficiency : ℚ
  energy_requirement : ℚ
  ghg_emissions : ℚ
  water_usage : ℚ
  co2_capture_rate : ℚ
deriving DecidableEq, Repr

/-- Electrolysis record as stored by `set_electrolysis_data` (the carbon
intensity is always resolved to a number before storage). -/
structure ElectrolysisData where
  co2_electrolysis_efficiency : ℚ
  water_electrolysis_efficiency : ℚ
  electricity_source : String
  electricity_carbon_intensity : ℚ
  energy_input_co : ℚ
  energy_input_h2 : ℚ
  water_usage : ℚ
deriving DecidableEq, Repr

/-- The four result dictionaries held in `self.results`, each an association
list from stage name to value, empty until `calculate_lca` runs. -/
structure Results where
  ghg_emissions : List (String × ℚ)
  energy_consumption : List (String × ℚ)
  water_usage : List (String × ℚ)
  land_use : List (String × ℚ)
deriving DecidableEq, Repr

/-- Empty results, as initialised in `__init__`. -/
def emptyResults : Results :=
  { ghg_emissions := [], energy_consumption := [], water_usage := [],
    land_use := [] }

/-- The mutable state of a `SAF_LCA_Model` instance: pathway configuration,
the six per-stage parameter dictionaries and the results. -/
structure ModelState where
  pathway : String
  functional_unit : String
  co2_source : Option String
  feedstock_data : Option FeedstockData
  conversion_data : Option ConversionData
  distribution_data : Option DistributionData
  use_phase_data : Option UsePhaseData
  carbon_capture_data : Option CarbonCaptureData
  electrolysis_data : Option ElectrolysisData
  results : Results
deriving DecidableEq, Repr

/-- The static table of electricity carbon intensities (kg CO2e/kWh) defined
inside `set_electrolysis_data`. -/
def electricity_carbon_intensities : List (String × ℚ) :=
  [("grid_global", 0.475), ("grid_eu", 0.253), ("grid_china", 0.638),
   ("grid_us", 0.389), ("natural_gas", 0.410), ("coal", 0.820),
   ("solar", 0.048), ("wind", 0.011), ("hydro", 0.024), ("nuclear", 0.012),
   ("biomass", 0.230), ("renewable_mix", 0.030), ("low_carbon_mix", 0.100),
   ("renewable", 0.020)]

/-- Arguments of `set_electrolysis_data`; the carbon intensity argument is
optional (`None` in Python). -/
structure ElecArgs where
  co2_electrolysis_efficiency : ℚ
  water_electrolysis_efficiency : ℚ
  electricity_source : String
  energy_input_co : ℚ
  energy_input_h2 : ℚ
  water_usage : ℚ
  electricity_carbon_intensity : Option ℚ
deriving DecidableEq, Repr

/-- `set_electrolysis_data`: resolves the electricity carbon intensity (an
explicit value wins; otherwise table lookup by source; otherwise the
"renewable" default with a printed warning) and builds the stored record.
The boolean is `true` when the warning diagnostic was printed. -/
def set_electrolysis_data (a : ElecArgs) : ElectrolysisData × Bool :=
  match a.electricity_carbon_intensity with
  | some v =>
      ({ co2_electrolysis_efficiency := a.co2_electrolysis_efficiency,
         water_electrolysis_efficiency := a.water_electrolysis_efficiency,
         electricity_source := a.electricity_source,
         electricity_carbon_intensity := v,
         energy_input_co := a.energy_input_co,
         energy_input_h2 := a.energy_input_h2,
         water_usage := a.water_usage }, false)
  | none =>
      match electricity_carbon_intensities.lookup a.electricity_source with
      | some v =>
          ({ co2_electrolysis_efficiency := a.co2_electrolysis_efficiency,
             water_electrolysis_efficiency := a.water_electrolysis_efficiency,
             electricity_source := a.electricity_source,
             electricity_carbon_intensity := v,
             energy_input_co := a.energy_input_co,
             energy_input_h2 := a.energy_input_h2,
             water_usage := a.water_usage }, false)
      | none =>
          ({ co2_electrolysis_efficiency := a.co2_electrolysis_efficiency,
             water_electrolysis_efficiency := a.water_electrolysis_efficiency,
             electricity_source := a.electricity_source,
             electricity_carbon_intensity :=
               (electricity_carbon_intensities.lookup "renewable").getD 0,
             energy_input_co := a.energy_input_co,
             energy_input_h2 := a.energy_input_h2,
             water_usage := a.water_usage }, true)

/-- The normalization-factor branch of `calculate_lca`: `1/energy_density`
for "MJ", `1` for "kg", `0.8` for "L", and `none` for any other unit (the
Python code then raises the unsupported-unit error). -/
def normalization_factor (unit : String) (energy_density : ℚ) : Option ℚ :=
  if unit = "MJ" then some (1 / energy_density)
  else if unit = "kg" then some 1
  else if unit = "L" then some 0.8
  else none

/-- `calculate_lca`: checks the five required stage dictionaries, resolves
the normalization factor, and computes the four result dictionaries exactly
as the Python body does. -/
def calculate_lca (s : ModelState) : Except LcaError Results :=
  match s.carbon_capture_data, s.electrolysis_data, s.conversion_data,
        s.distribution_data, s.use_phase_data with
  | some cc, some el, some cv, some db, some up =>
    match normalization_factor s.functional_unit up.energy_density with
    | none => .error (.unsupportedUnit s.functional_unit)
    | some nf =>
      let actual_co2_needed := cc.co2_capture_rate / (cc.capture_efficiency / 100)
      let carbon_capture_ghg := cc.ghg_emissions * actual_co2_needed * nf
      let elec_intensity_mj := el.electricity_carbon_intensity / 3.6
      let co_h2_ratio := cv.co_h2_ratio.getD 1
      let total_syngas_needed := cv.syngas_requirement.getD 2.5 * nf
      let co_needed := total_syngas_needed * (co_h2_ratio / (1 + co_h2_ratio))
      let h2_needed := total_syngas_needed * (1 / (1 + co_h2_ratio))
      let actual_co_needed := co_needed / (el.co2_electrolysis_efficiency / 100)
      let actual_h2_needed := h2_needed / (el.water_electrolysis_efficiency / 100)
      let co_emissions := actual_co_needed * el.energy_input_co * elec_intensity_mj
      let h2_emissions := actual_h2_needed * el.energy_input_h2 * elec_intensity_mj
      let electrolysis_ghg := co_emissions + h2_emissions
      let conversion_ghg := cv.ghg_emissions * nf
      let distribution_ghg := db.ghg_emissions * nf
      let use_phase_ghg := up.combustion_emissions * nf
      let total_ghg := carbon_capture_ghg + electrolysis_ghg + conversion_ghg +
        distribution_ghg + use_phase_ghg
      let carbon_capture_energy := (cc.energy_requirement * actual_co2_needed) * nf
      let co_energy := actual_co_needed * el.energy_input_co
      let h2_energy := actual_h2_needed * el.energy_input_h2
      let electrolysis_energy := (co_energy + h2_energy) * nf
      let conversion_energy := cv.energy_input * nf
      let distribution_energy := db.energy_input * nf
      let total_energy := carbon_capture_energy + electrolysis_energy +
        conversion_energy + distribution_energy
      let carbon_capture_water := cc.water_usage * actual_co2_needed * nf
      let electrolysis_water := el.water_usage * total_syngas_needed
      let conversion_water := cv.water_usage * nf
      .ok
        { ghg_emissions :=
            [("carbon_capture", carbon_capture_ghg),
             ("electrolysis", electrolysis_ghg),
             ("conversion", conversion_ghg),
             ("distribution", distribution_ghg),
             ("use_phase", use_phase_ghg),
             ("total", total_ghg)],
          energy_consumption :=
            [("carbon_capture", carbon_capture_energy),
             ("electrolysis", electrolysis_energy),
             ("conversion", conversion_energy),
             ("distribution", distribution_energy),
             ("total", total_energy)],
          water_usage :=
            [("carbon_capture", carbon_capture_water),
             ("electrolysis", electrolysis_water),
             ("conversion", conversion_water),
             ("total", carbon_capture_water + electrolysis_water + conversion_water)],
          land_use := [("total", 0)] }
  | _, _, _, _, _ => .error (.missingData s.pathway)

/-- Running `self.calculate_lca()` for its effect: on success the results
field is replaced, on an exception the state is unchanged. -/
def run_calculate (s : ModelState) : ModelState × Except LcaError Results :=
  match calculate_lca s with
  | .ok r => ({ s with results := r }, .ok r)
  | .error e => (s, .error e)

/-- `calculate_emission_reduction`: triggers a calculation when the GHG
results dictionary is empty, converts the total to g CO2e/MJ (dividing by
energy density unless the functional unit is MJ) and applies the reduction
formula against the fossil baseline. -/
def calculate_emission_reduction (s : ModelState) (fossil_jet_emissions : ℚ) :
    ModelState × Except LcaError ℚ :=
  match (if s.results.ghg_emissions = [] then run_calculate s else (s, .ok s.results)) with
  | (s1, .error e) => (s1, .error e)
  | (s1, .ok _) =>
    match s1.results.ghg_emissions.lookup "total" with
    | none => (s1, .error (.keyError "total"))
    | some total =>
      if s1.functional_unit = "MJ" then
        (s1, .ok ((fossil_jet_emissions - total * 1000) / fossil_jet_emissions * 100))
      else
        match s1.use_phase_data with
        | none => (s1, .error (.keyError "energy_density"))
        | some up =>
          (s1, .ok ((fossil_jet_emissions - total * 1000 / up.energy_density) /
            fossil_jet_emissions * 100))

/-- `calculate_emission_reduction` with the default fossil baseline 89.0. -/
def calculate_emission_reduction_default (s : ModelState) :
    ModelState × Except LcaError ℚ :=
  calculate_emission_reduction s 89

/-- One row of the `analyze_electricity_sources` result table (before the
contribution column is added). -/
structure SweepRow where
  electricity_source : String
  carbon_intensity : ℚ
  saf_emissions_mjbasis : ℚ
  emission_reduction : ℚ
  electrolysis_emissions : ℚ
  total_emissions : ℚ
deriving DecidableEq, Repr

/-- The default electricity source list used by `analyze_electricity_sources`
when none is supplied. -/
def default_sources : List String :=
  ["renewable_mix", "grid_global", "grid_eu", "grid_us", "grid_china",
   "natural_gas", "coal", "solar", "wind", "hydro", "renewable"]

/-- Builds one scenario row from the post-calculation state and the fresh
results, following the per-iteration body of `analyze_electricity_sources`
(g CO2e/MJ conversion, fixed 89.0 baseline). -/
def sweep_row (s : ModelState) (src : String) (r : Results) :
    Except LcaError SweepRow :=
  let total := (r.ghg_emissions.lookup "total").getD 0
  let elec := (r.ghg_emissions.lookup "electrolysis").getD 0
  let intensity :=
    (s.electrolysis_data.map (fun e => e.electricity_carbon_intensity)).getD 0
  if s.functional_unit = "MJ" then
    let saf := total * 1000
    .ok { electricity_source := src, carbon_intensity := intensity,
          saf_emissions_mjbasis := saf,
          emission_reduction := (89 - saf) / 89 * 100,
          electrolysis_emissions := elec * 1000, total_emissions := saf }
  else
    match s.use_phase_data with
    | none => .error (.keyError "energy_density")
    | some up =>
      let saf := total * 1000 / up.energy_density
      .ok { electricity_source := src, carbon_intensity := intensity,
            saf_emissions_mjbasis := saf,
            emission_reduction := (89 - saf) / 89 * 100,
            electrolysis_emissions := elec * 1000 / up.energy_density,
            total_emissions := saf }

/-- The sweep loop of `analyze_electricity_sources`: for each source, rewrite
the electrolysis record via `set_electrolysis_data` (efficiencies and water
usage read from the current record, energy inputs from the pre-sweep
originals, intensity re-derived from the source tag), recalculate, and
record a row.  An exception mid-sweep leaves the mutated state behind, as in
the Python code. -/
def sweep_loop (orig_co orig_h2 : ℚ) (sources : List String)
    (s : ModelState) (acc : List SweepRow) :
    ModelState × Except LcaError (List SweepRow) :=
  match sources with
  | [] => (s, .ok acc)
  | src :: rest =>
    match s.electrolysis_data with
    | none => (s, .error (.keyError "co2_electrolysis_efficiency"))
    | some cur =>
      let s1 : ModelState :=
        { s with electrolysis_data := some (set_electrolysis_data
              { co2_electrolysis_efficiency := cur.co2_electrolysis_efficiency,
                water_electrolysis_efficiency := cur.water_electrolysis_efficiency,
                electricity_source := src,
                energy_input_co := orig_co,
                energy_input_h2 := orig_h2,
                water_usage := cur.water_usage,
                electricity_carbon_intensity := none }).1 }
      match run_calculate s1 with
      | (s2, .error e) => (s2, .error e)
      | (s2, .ok r) =>
        match sweep_row s2 src r with
        | .error e => (s2, .error e)
        | .ok row => sweep_loop orig_co orig_h2 rest s2 (acc ++ [row])

/-- `analyze_electricity_sources`: capture the original electrolysis source,
intensity and energy inputs, sweep the scenario list, restore the original
source and intensity, recalculate, and post-process the rows with the
electrolysis contribution column (the second component of each pair). -/
def analyze_electricity_sources (s : ModelState)
    (electricity_sources : Option (List String)) :
    ModelState × Except LcaError (List (SweepRow × ℚ)) :=
  let sources := electricity_sources.getD default_sources
  let original_source :=
    (s.electrolysis_data.map (fun e => e.electricity_source)).getD "renewable"
  let original_intensity :=
    (s.electrolysis_data.map (fun e => e.electricity_carbon_intensity)).getD 0.020
  let original_co :=
    (s.electrolysis_data.map (fun e => e.energy_input_co)).getD 28
  let original_h2 :=
    (s.electrolysis_data.map (fun e => e.energy_input_h2)).getD 55
  match sweep_loop original_co original_h2 sources s [] with
  | (s1, .error e) => (s1, .error e)
  | (s1, .ok rows) =>
    match s1.electrolysis_data with
    | none => (s1, .error (.keyError "co2_electrolysis_efficiency"))
    | some cur =>
      let s2 : ModelState :=
        { s1 with electrolysis_data := some (set_electrolysis_data
              { co2_electrolysis_efficiency := cur.co2_electrolysis_efficiency,
                water_electrolysis_efficiency := cur.water_electrolysis_efficiency,
                electricity_source := original_source,
                energy_input_co := original_co,
                energy_input_h2 := original_h2,
                water_usage := cur.water_usage,
                electricity_carbon_intensity := some original_intensity }).1 }
      match run_calculate s2 with
      | (s3, .error e) => (s3, .error e)
      | (s3, .ok _) =>
        (s3, .ok (rows.map (fun row =>
          (row, row.electrolysis_emissions / row.total_emissions * 100))))

/-- Use-phase record of the example driver (`__main__`). -/
def exampleUsePhase : UsePhaseData :=
  { combustion_emissions := 0, energy_density := 43 }

/-- Carbon capture record of the example driver. -/
def exampleCarbonCapture : CarbonCaptureData :=
  { capture_efficiency := 80, energy_requirement := 30, ghg_emissions := 0.08,
    water_usage := 5, co2_capture_rate := 3.1 }

/-- Electrolysis record of the example driver (intensity resolved from the
"renewable" table entry). -/
def exampleElectrolysis : ElectrolysisData :=
  { co2_electrolysis_efficiency := 65, water_electrolysis_efficiency := 75,
    electricity_source := "renewable", electricity_carbon_intensity := 0.020,
    energy_input_co := 28, energy_input_h2 := 55, water_usage := 20 }

/-- Conversion record of the example driver. -/
def exampleConversion : ConversionData :=
  { technology := "Fischer-Tropsch", efficiency := 0.65, ghg_emissions := 0.2,
    energy_input := 25, water_usage := 5, syngas_requirement := some 2.13,
    co_h2_ratio := some 0.923 }

/-- Distribution record of the example driver. -/
def exampleDistribution : DistributionData :=
  { transport_distance := 500, transport_mode := "truck",
    ghg_emissions := 0.05, energy_input := 2 }

/-- The fully configured model state of the example driver, just before
`calculate_lca` is called. -/
def exampleState : ModelState :=
  { pathway := "FT", functional_unit := "MJ", co2_source := some "DAC",
    feedstock_data := none,
    conversion_data := some exampleConversion,
    distribution_data := some exampleDistribution,
    use_phase_data := some exampleUsePhase,
    carbon_capture_data := some exampleCarbonCapture,
    electrolysis_data := some exampleElectrolysis,
    results := emptyResults }

/-- The example state on a per-kg functional unit (normalization factor 1),
used to exercise the unnormalized carbon-capture scenario. -/
def exampleStateKg : ModelState := { exampleState with functional_unit := "kg" }

/-- A state whose electrolysis record uses the coal source, with the
conversion record absent, so any calculation during a sweep raises the
missing-data error. -/
def coalElectrolysis : ElectrolysisData :=
  { exampleElectrolysis with
    electricity_source := "coal"
    electricity_carbon_intensity := 0.820 }

/-- See `coalElectrolysis`: the sweep-failure scenario state. -/
def coalNoConversionState : ModelState :=
  { exampleState with
    conversion_data := none
    electrolysis_data := some coalElectrolysis }

/-- A conversion record with no optional syngas keys, so the in-formula
defaults (2.5 and 1.0) apply. -/
def plainConversion : ConversionData :=
  { technology := "FT", efficiency := 1, ghg_emissions := 0, energy_input := 0,
    water_usage := 0, syngas_requirement := none, co_h2_ratio := none }

/-- An electrolysis record with 100% efficiencies and unit energy inputs so
the electrolysis energy value is easy to read off. -/
def unitElectrolysis : ElectrolysisData :=
  { co2_electrolysis_efficiency := 100, water_electrolysis_efficiency := 100,
    electricity_source := "renewable", electricity_carbon_intensity := 0.020,
    energy_input_co := 1, energy_input_h2 := 1, water_usage := 0 }

/-- A complete state on the kg basis with the simplified conversion and
electrolysis records. -/
def scalingStateKg : ModelState :=
  { exampleState with
    functional_unit := "kg"
    conversion_data := some plainConversion
    electrolysis_data := some unitElectrolysis }

/-- The same state on the L basis: it differs from `scalingStateKg` only in
the functional unit. -/
def scalingStateL : ModelState := { scalingStateKg with functional_unit := "L" }

/-- The example state with a zero capture efficiency, the division-by-zero
hazard input. -/
def zeroEfficiencyCapture : CarbonCaptureData :=
  { exampleCarbonCapture with capture_efficiency := 0 }

/-- See `zeroEfficiencyCapture`: the hazard state. -/
def zeroEfficiencyState : ModelState :=
  { exampleState with carbon_capture_data := some zeroEfficiencyCapture }

/-- A state with precomputed GHG results whose total is 0.02 kg CO2e/MJ,
i.e. 20 g CO2e/MJ. -/
def preloadedResults : Results :=
  { ghg_emissions := [("total", 0.02)], energy_consumption := [],
    water_usage := [], land_use := [] }

/-- See `preloadedResults`: the example state carrying them. -/
def preloadedResultsState : ModelState :=
  { exampleState with results := preloadedResults }

/-- Electrolysis-setter arguments with the unrecognized source tag "fusion"
and no explicit carbon intensity. -/
def fusionArgs : ElecArgs :=
  { co2_electrolysis_efficiency := 65, water_electrolysis_efficiency := 75,
    electricity_source := "fusion", energy_input_co := 28,
    energy_input_h2 := 55, water_usage := 20,
    electricity_carbon_intensity := none }

/-- Helper: a successful `calculate_lca` always produces the fixed stage-key
layout of the four result dictionaries. -/
theorem calculate_lca_ok_keys (s : ModelState) (r : Results)
    (h : calculate_lca s = Except.ok r) :
    r.ghg_emissions.map Prod.fst =
      ["carbon_capture", "electrolysis", "conversion", "distribution",
       "use_phase", "total"] ∧
    r.energy_consumption.map Prod.fst =
      ["carbon_capture", "electrolysis", "conversion", "distribution", "total"] ∧
    r.water_usage.map Prod.fst =
      ["carbon_capture", "electrolysis", "conversion", "total"] ∧
    r.land_use = [("total", 0)] := by
  unfold calculate_lca at h
  split at h
  · split at h
    · exact absurd h (by simp)
    · cases h
      refine ⟨rfl, rfl, rfl, rfl⟩
  · exact absurd h (by simp)


/-- C1: for every complete parameter state with nonzero electrolysis
efficiencies, `calculate_lca` computes the electrolysis stage from the total
syngas demand `syngas_requirement` (default 2.5) times the normalization
factor, split into CO and H2 shares by `ratio/(1+ratio)` and `1/(1+ratio)`
(ratio defaulting to 1), each divided by its efficiency/100; stage GHG is
the energy-weighted sum times `electricity_carbon_intensity/3.6`, stage
energy is the same sum times the normalization factor again (on top of the
normalization already embedded in the syngas demand), and stage water is
`water_usage` times the syngas demand with no efficiency division. -/
theorem C1_electrolysis_stage (s : ModelState) (cc : CarbonCaptureData)
    (el : ElectrolysisData) (cv : ConversionData) (db : DistributionData)
    (up : UsePhaseData) (nf : ℚ)
    (hcc : s.carbon_capture_data = some cc) (hel : s.electrolysis_data = some el)
    (hcv : s.conversion_data = some cv) (hdb : s.distribution_data = some db)
    (hup : s.use_phase_data = some up)
    (hnf : normalization_factor s.functional_unit up.energy_density = some nf)
    (hce : el.co2_electrolysis_efficiency ≠ 0)
    (hwe : el.water_electrolysis_efficiency ≠ 0) :
    ∃ r, calculate_lca s = Except.ok r ∧
      (let ratio := cv.co_h2_ratio.getD 1
       let total_syngas_needed := cv.syngas_requirement.getD 2.5 * nf
       let actual_co := total_syngas_needed * (ratio / (1 + ratio)) /
         (el.co2_electrolysis_efficiency / 100)
       let actual_h2 := total_syngas_needed * (1 / (1 + ratio)) /
         (el.water_electrolysis_efficiency / 100)
       r.ghg_emissions.lookup "electrolysis" =
         some ((actual_co * el.energy_input_co + actual_h2 * el.energy_input_h2) *
           (el.electricity_carbon_intensity / 3.6)) ∧
       r.energy_consumption.lookup "electrolysis" =
         some ((actual_co * el.energy_input_co + actual_h2 * el.energy_input_h2) * nf) ∧
       r.water_usage.lookup "electrolysis" =
         some (el.water_usage * total_syngas_needed)) := by
  unfold calculate_lca
  rw [hcc, hel, hcv, hdb, hup]
  simp only []
  rw [hnf]
  simp only []
  refine ⟨_, rfl, ?_, ?_, ?_⟩
  · simp only [List.lookup, String.reduceBEq]
    congr 1
    ring
  · rfl
  · rfl

/-- C1 witness: the theorem instantiated at the example driver state on the
MJ basis (normalization factor 1/43). -/
theorem C1_electrolysis_stage_witness :
    ∃ r, calculate_lca exampleState = Except.ok r ∧
      (let ratio := exampleConversion.co_h2_ratio.getD 1
       let total_syngas_needed := exampleConversion.syngas_requirement.getD 2.5 * (1 / 43)
       let actual_co := total_syngas_needed * (ratio / (1 + ratio)) /
         (exampleElectrolysis.co2_electrolysis_efficiency / 100)
       let actual_h2 := total_syngas_needed * (1 / (1 + ratio)) /
         (exampleElectrolysis.water_electrolysis_efficiency / 100)
       r.ghg_emissions.lookup "electrolysis" =
         some ((actual_co * exampleElectrolysis.energy_input_co +
             actual_h2 * exampleElectrolysis.energy_input_h2) *
           (exampleElectrolysis.electricity_carbon_intensity / 3.6)) ∧
       r.energy_consumption.lookup "electrolysis" =
         some ((actual_co * exampleElectrolysis.energy_input_co +
             actual_h2 * exampleElectrolysis.energy_input_h2) * (1 / 43)) ∧
       r.water_usage.lookup "electrolysis" =
         some (exampleElectrolysis.water_usage * total_syngas_needed)) :=
  C1_electrolysis_stage exampleState exampleCarbonCapture exampleElectrolysis
    exampleConversion exampleDistribution exampleUsePhase (1 / 43)
    rfl rfl rfl rfl rfl rfl
    (by norm_num [exampleElectrolysis]) (by norm_num [exampleElectrolysis])

/-- C2: for every complete parameter state with a nonzero capture
efficiency, `calculate_lca` computes the carbon-capture stage from the
actual CO2 throughput `co2_capture_rate / (capture_efficiency/100)`: stage
GHG, energy and water are the per-kg-CO2 coefficients times the actual CO2
times the normalization factor. -/
theorem C2_carbon_capture_stage (s : ModelState) (cc : CarbonCaptureData)
    (el : ElectrolysisData) (cv : ConversionData) (db : DistributionData)
    (up : UsePhaseData) (nf : ℚ)
    (hcc : s.carbon_capture_data = some cc) (hel : s.electrolysis_data = some el)
    (hcv : s.conversion_data = some cv) (hdb : s.distribution_data = some db)
    (hup : s.use_phase_data = some up)
    (hnf : normalization_factor s.functional_unit up.energy_density = some nf)
    (hcap : cc.capture_efficiency ≠ 0) :
    ∃ r, calculate_lca s = Except.ok r ∧
      (let actual_co2 := cc.co2_capture_rate / (cc.capture_efficiency / 100)
       r.ghg_emissions.lookup "carbon_capture" =
         some (cc.ghg_emissions * actual_co2 * nf) ∧
       r.energy_consumption.lookup "carbon_capture" =
         some (cc.energy_requirement * actual_co2 * nf) ∧
       r.water_usage.lookup "carbon_capture" =
         some (cc.water_usage * actual_co2 * nf)) := by
  unfold calculate_lca
  rw [hcc, hel, hcv, hdb, hup]
  simp only []
  rw [hnf]
  simp only []
  exact ⟨_, rfl, rfl, rfl, rfl⟩

/-- C2 witness: at the example parameters on the kg basis (normalization
factor 1), the actual CO2 is 3.1/0.8 = 3.875 kg per kg fuel and the
unnormalized carbon-capture GHG is 0.08 x 3.875 = 0.31 kg CO2e per kg. -/
theorem C2_carbon_capture_stage_witness :
    (3.1 / ((80 : ℚ) / 100) = 3.875) ∧
    ∃ r, calculate_lca exampleStateKg = Except.ok r ∧
      r.ghg_emissions.lookup "carbon_capture" = some 0.31 ∧
      r.energy_consumption.lookup "carbon_capture" = some (30 * 3.875) ∧
      r.water_usage.lookup "carbon_capture" = some (5 * 3.875) := by
  refine ⟨by norm_num, ?_⟩
  obtain ⟨r, hr, h1, h2, h3⟩ :=
    C2_carbon_capture_stage exampleStateKg exampleCarbonCapture
      exampleElectrolysis exampleConversion exampleDistribution exampleUsePhase 1
      rfl rfl rfl rfl rfl rfl (by norm_num [exampleCarbonCapture])
  refine ⟨r, hr, ?_, ?_, ?_⟩
  · rw [h1]; norm_num [exampleCarbonCapture]
  · rw [h2]; norm_num [exampleCarbonCapture]
  · rw [h3]; norm_num [exampleCarbonCapture]

/-- C3: for every complete parameter state, the normalization factor is
1/energy_density for the "MJ" functional unit, 1 for "kg" and 0.8 for "L";
for any other unit string `calculate_lca` fails with the unsupported-unit
error carrying that unit, and it succeeds exactly on these three units. -/
theorem C3_normalization_units (s : ModelState) (cc : CarbonCaptureData)
    (el : ElectrolysisData) (cv : ConversionData) (db : DistributionData)
    (up : UsePhaseData)
    (hcc : s.carbon_capture_data = some cc) (hel : s.electrolysis_data = some el)
    (hcv : s.conversion_data = some cv) (hdb : s.distribution_data = some db)
    (hup : s.use_phase_data = some up)
    (hed : up.energy_density ≠ 0) (hcap : cc.capture_efficiency ≠ 0)
    (hce : el.co2_electrolysis_efficiency ≠ 0)
    (hwe : el.water_electrolysis_efficiency ≠ 0)
    (hr : 1 + cv.co_h2_ratio.getD 1 ≠ 0) :
    (s.functional_unit = "MJ" →
      normalization_factor s.functional_unit up.energy_density =
        some (1 / up.energy_density)) ∧
    (s.functional_unit = "kg" →
      normalization_factor s.functional_unit up.energy_density = some 1) ∧
    (s.functional_unit = "L" →
      normalization_factor s.functional_unit up.energy_density = some 0.8) ∧
    (s.functional_unit ∉ (["MJ", "kg", "L"] : List String) →
      calculate_lca s = Except.error (LcaError.unsupportedUnit s.functional_unit)) ∧
    ((∃ r, calculate_lca s = Except.ok r) ↔
      s.functional_unit ∈ (["MJ", "kg", "L"] : List String)) := by
  have hnone : s.functional_unit ∉ (["MJ", "kg", "L"] : List String) →
      normalization_factor s.functional_unit up.energy_density = none := by
    intro h
    simp only [List.mem_cons, List.mem_singleton, not_or] at h
    simp [normalization_factor, h.1, h.2.1, h.2.2]
  have herr : s.functional_unit ∉ (["MJ", "kg", "L"] : List String) →
      calculate_lca s = Except.error (LcaError.unsupportedUnit s.functional_unit) := by
    intro h
    unfold calculate_lca
    rw [hcc, hel, hcv, hdb, hup]
    simp only []
    rw [hnone h]
  refine ⟨?_, ?_, ?_, herr, ?_⟩
  · intro h; simp [normalization_factor, h]
  · intro h; simp [normalization_factor, h]
  · intro h; simp [normalization_factor, h]
  · constructor
    · rintro ⟨r, hok⟩
      by_contra hnot
      rw [herr hnot] at hok
      exact absurd hok (by simp)
    · intro hmem
      have : ∃ nf, normalization_factor s.functional_unit up.energy_density = some nf := by
        simp only [List.mem_cons, List.mem_singleton] at hmem
        rcases hmem with h | h | h | h
        · exact ⟨1 / up.energy_density, by simp [normalization_factor, h]⟩
        · exact ⟨1, by simp [normalization_factor, h]⟩
        · exact ⟨0.8, by simp [normalization_factor, h]⟩
        · exact absurd h (by simp)
      obtain ⟨nf, hnf⟩ := this
      unfold calculate_lca
      rw [hcc, hel, hcv, hdb, hup]
      simp only []
      rw [hnf]
      simp only []
      exact ⟨_, rfl⟩

/-- C3 witness: the theorem instantiated at the example driver state, whose
functional unit is "MJ". -/
theorem C3_normalization_units_witness :
    (exampleState.functional_unit = "MJ" →
      normalization_factor exampleState.functional_unit exampleUsePhase.energy_density =
        some (1 / exampleUsePhase.energy_density)) ∧
    (exampleState.functional_unit = "kg" →
      normalization_factor exampleState.functional_unit exampleUsePhase.energy_density = some 1) ∧
    (exampleState.functional_unit = "L" →
      normalization_factor exampleState.functional_unit exampleUsePhase.energy_density = some 0.8) ∧
    (exampleState.functional_unit ∉ (["MJ", "kg", "L"] : List String) →
      calculate_lca exampleState =
        Except.error (LcaError.unsupportedUnit exampleState.functional_unit)) ∧
    ((∃ r, calculate_lca exampleState = Except.ok r) ↔
      exampleState.functional_unit ∈ (["MJ", "kg", "L"] : List String)) :=
  C3_normalization_units exampleState exampleCarbonCapture exampleElectrolysis
    exampleConversion exampleDistribution exampleUsePhase
    rfl rfl rfl rfl rfl
    (by norm_num [exampleUsePhase]) (by norm_num [exampleCarbonCapture])
    (by norm_num [exampleElectrolysis]) (by norm_num [exampleElectrolysis])
    (by norm_num [exampleConversion, Option.getD])

/-- C4: `calculate_lca` fails with the missing-data error carrying the
pathway name exactly when at least one of the carbon-capture, electrolysis,
conversion, distribution or use-phase records is absent; an absent
feedstock record alone never triggers it, and on any error the stored
results are left untouched (no results are produced). -/
theorem C4_missing_data (s : ModelState) :
    ((∃ p, calculate_lca s = Except.error (LcaError.missingData p)) ↔
      (s.carbon_capture_data = none ∨ s.electrolysis_data = none ∨
       s.conversion_data = none ∨ s.distribution_data = none ∨
       s.use_phase_data = none)) ∧
    (∀ p, calculate_lca s = Except.error (LcaError.missingData p) → p = s.pathway) ∧
    ((s.feedstock_data = none ∧ s.carbon_capture_data.isSome ∧
      s.electrolysis_data.isSome ∧ s.conversion_data.isSome ∧
      s.distribution_data.isSome ∧ s.use_phase_data.isSome) →
      ∀ p, calculate_lca s ≠ Except.error (LcaError.missingData p)) ∧
    (∀ e, calculate_lca s = Except.error e → (run_calculate s).1.results = s.results) := by
  obtain ⟨pw, fu, co2, fd, cvd, dd, ud, ccd, eld, res⟩ := s
  rcases ccd with _ | cc <;> rcases eld with _ | el <;> rcases cvd with _ | cv <;>
    rcases dd with _ | db <;> rcases ud with _ | up
  all_goals try (simp [calculate_lca, run_calculate]; done)
  rcases hnf : normalization_factor fu up.energy_density with _ | nf <;>
    simp [calculate_lca, run_calculate, hnf]

/-- C4 witness: the theorem applied to the state missing its conversion
record (missing-data error carrying pathway "FT") and to the complete
example state (no missing-data error). -/
theorem C4_missing_data_witness :
    (∃ p, calculate_lca coalNoConversionState =
        Except.error (LcaError.missingData p) ∧ p = coalNoConversionState.pathway) ∧
    (∀ p, calculate_lca exampleState ≠ Except.error (LcaError.missingData p)) := by
  obtain ⟨h1, h2, _, _⟩ := C4_missing_data coalNoConversionState
  obtain ⟨_, _, hx3, _⟩ := C4_missing_data exampleState
  refine ⟨?_, hx3 ⟨rfl, rfl, rfl, rfl, rfl, rfl⟩⟩
  obtain ⟨p, hp⟩ := h1.mpr (Or.inr (Or.inr (Or.inl rfl)))
  exact ⟨p, hp, h2 p hp⟩

/-- C5: `set_electrolysis_data` stores an explicitly supplied electricity
carbon intensity unchanged regardless of the source tag; with no explicit
value it stores the reference-table value for a recognized source tag, and
for an unrecognized tag it stores the "renewable" value 0.020 and emits the
warning diagnostic (returning normally, never failing). -/
theorem C5_set_electrolysis_intensity (a : ElecArgs) :
    (∀ v, a.electricity_carbon_intensity = some v →
      (set_electrolysis_data a).1.electricity_carbon_intensity = v) ∧
    (∀ w, a.electricity_carbon_intensity = none →
      electricity_carbon_intensities.lookup a.electricity_source = some w →
      (set_electrolysis_data a).1.electricity_carbon_intensity = w ∧
      (set_electrolysis_data a).2 = false) ∧
    (a.electricity_carbon_intensity = none →
      electricity_carbon_intensities.lookup a.electricity_source = none →
      (set_electrolysis_data a).1.electricity_carbon_intensity = 0.020 ∧
      (set_electrolysis_data a).2 = true) := by
  refine ⟨?_, ?_, ?_⟩
  · intro v hv
    simp [set_electrolysis_data, hv]
  · intro w hn hl
    simp [set_electrolysis_data, hn, hl]
  · intro hn hl
    simp [set_electrolysis_data, hn, hl]
    rfl

/-- C5 witness: with source tag "fusion" and no explicit intensity, the
stored intensity is the "renewable" default 0.020 and the diagnostic is
emitted. -/
theorem C5_set_electrolysis_intensity_witness :
    (set_electrolysis_data fusionArgs).1.electricity_carbon_intensity = 0.020 ∧
    (set_electrolysis_data fusionArgs).2 = true :=
  (C5_set_electrolysis_intensity fusionArgs).2.2 rfl rfl

/-- Helper: running a calculation never changes the stored electrolysis
record, whether it succeeds or raises. -/
theorem run_calculate_preserves_electrolysis (t : ModelState) :
    (run_calculate t).1.electrolysis_data = t.electrolysis_data := by
  unfold run_calculate
  rcases h : calculate_lca t with e | r <;> rfl

/-- C6 (amended): when `analyze_electricity_sources` returns successfully,
the stored electricity source and carbon intensity equal their pre-sweep
values; the original claim also covered sweeps interrupted by an error,
which the code does not restore (see the counterexample). -/
theorem C6_restore_on_success (s : ModelState) (el : ElectrolysisData)
    (sources : Option (List String)) (rows : List (SweepRow × ℚ))
    (hel : s.electrolysis_data = some el)
    (hok : (analyze_electricity_sources s sources).2 = Except.ok rows) :
    ∃ el2, (analyze_electricity_sources s sources).1.electrolysis_data = some el2 ∧
      el2.electricity_source = el.electricity_source ∧
      el2.electricity_carbon_intensity = el.electricity_carbon_intensity := by
  unfold analyze_electricity_sources at hok ⊢
  rw [hel] at hok ⊢
  simp only [Option.map_some', Option.getD_some] at hok ⊢
  split
  · rename_i s1 e heq
    rw [heq] at hok
    simp at hok
  · rename_i s1 rows' heq
    rw [heq] at hok
    simp only [] at hok
    split
    · rename_i heq2
      rw [heq2] at hok
      simp at hok
    · rename_i cur heq2
      rw [heq2] at hok
      simp only [] at hok
      split
      · rename_i s3 e heq3
        rw [heq3] at hok
        simp at hok
      · rename_i s3 a heq3
        have h1 := run_calculate_preserves_electrolysis
          { s1 with electrolysis_data := some (set_electrolysis_data
              { co2_electrolysis_efficiency := cur.co2_electrolysis_efficiency,
                water_electrolysis_efficiency := cur.water_electrolysis_efficiency,
                electricity_source := el.electricity_source,
                energy_input_co := el.energy_input_co,
                energy_input_h2 := el.energy_input_h2,
                water_usage := cur.water_usage,
                electricity_carbon_intensity :=
                  some el.electricity_carbon_intensity }).1 }
        rw [heq3] at h1
        exact ⟨_, h1, rfl, rfl⟩

/-- C6 counterexample: starting from the coal-sourced state whose conversion
record is absent, sweeping the single scenario "wind" raises the
missing-data error inside the sweep; the electrolysis source is left at
"wind", not restored to "coal", refuting the error-path half of the claim
(the code has no scoped-cleanup construct around the sweep). -/
theorem C6_sweep_counterexample :
    coalNoConversionState.electrolysis_data.map (fun e => e.electricity_source) =
      some "coal" ∧
    (analyze_electricity_sources coalNoConversionState
        (some ["wind"])).1.electrolysis_data.map (fun e => e.electricity_source) =
      some "wind" ∧
    ("wind" : String) ≠ "coal" :=
  ⟨rfl, rfl, by decide⟩

/-- C6 witness: a successful single-scenario sweep from the complete example
state restores the "renewable" source and its 0.020 intensity. -/
theorem C6_restore_on_success_witness :
    ∃ el2, (analyze_electricity_sources exampleState
        (some ["wind"])).1.electrolysis_data = some el2 ∧
      el2.electricity_source = exampleElectrolysis.electricity_source ∧
      el2.electricity_carbon_intensity =
        exampleElectrolysis.electricity_carbon_intensity := by
  have hisok : (analyze_electricity_sources exampleState
      (some ["wind"])).2.toOption.isSome = true := rfl
  rcases hok : (analyze_electricity_sources exampleState (some ["wind"])).2 with e | rows
  · rw [hok] at hisok
    simp [Except.toOption] at hisok
  · exact C6_restore_on_success exampleState exampleElectrolysis (some ["wind"])
      rows rfl hok


/-- C7 counterexample: two complete states differing only in the functional
unit (kg vs L, normalization factors 1 and 0.8): the electrolysis energy
value is 2.5 on the kg basis but 1.6 on the L basis, which is not 0.8/1
times 2.5 — the electrolysis energy scales with the square of the
normalization-factor ratio, refuting the claim that every value scales by
the ratio. -/
theorem C7_unit_scaling_counterexample :
    scalingStateL = { scalingStateKg with functional_unit := "L" } ∧
    normalization_factor "kg" exampleUsePhase.energy_density = some 1 ∧
    normalization_factor "L" exampleUsePhase.energy_density = some 0.8 ∧
    (calculate_lca scalingStateKg).toOption.bind
      (fun r => r.energy_consumption.lookup "electrolysis") = some (5 / 2) ∧
    (calculate_lca scalingStateL).toOption.bind
      (fun r => r.energy_consumption.lookup "electrolysis") = some (8 / 5) ∧
    ((8 / 5 : ℚ) ≠ 0.8 / 1 * (5 / 2)) := by
  refine ⟨rfl, rfl, rfl, ?_, ?_, by norm_num⟩ <;>
    simp only [calculate_lca, scalingStateKg, scalingStateL, exampleState,
      plainConversion, unitElectrolysis, exampleUsePhase, exampleCarbonCapture,
      exampleDistribution, normalization_factor, String.reduceEq, reduceIte,
      Option.getD_some, Option.getD_none] <;>
    norm_num [Except.toOption, Option.bind, List.lookup, String.reduceBEq] <;>
    simp [String.reduceBEq]

/-- C7 (amended): between two complete states differing only in the
functional unit, every GHG, water and land-use value and the carbon-capture,
conversion and distribution energy values scale by the ratio of the two
normalization factors, but the electrolysis energy scales by the square of
that ratio and the energy total is the correspondingly mixed sum, so the
within-mapping proportions are preserved for GHG and water but not for
energy. -/
theorem C7_unit_scaling (s : ModelState) (u1 u2 : String)
    (cc : CarbonCaptureData) (el : ElectrolysisData) (cv : ConversionData)
    (db : DistributionData) (up : UsePhaseData) (n1 n2 : ℚ)
    (hcc : s.carbon_capture_data = some cc) (hel : s.electrolysis_data = some el)
    (hcv : s.conversion_data = some cv) (hdb : s.distribution_data = some db)
    (hup : s.use_phase_data = some up)
    (hn1 : normalization_factor u1 up.energy_density = some n1)
    (hn2 : normalization_factor u2 up.energy_density = some n2)
    (h1 : n1 ≠ 0) :
    ∃ r1 r2,
      calculate_lca { s with functional_unit := u1 } = Except.ok r1 ∧
      calculate_lca { s with functional_unit := u2 } = Except.ok r2 ∧
      (∀ key, r2.ghg_emissions.lookup key =
        (r1.ghg_emissions.lookup key).map (fun x => n2 / n1 * x)) ∧
      (∀ key, r2.water_usage.lookup key =
        (r1.water_usage.lookup key).map (fun x => n2 / n1 * x)) ∧
      (∀ key, r2.land_use.lookup key =
        (r1.land_use.lookup key).map (fun x => n2 / n1 * x)) ∧
      r2.energy_consumption.lookup "carbon_capture" =
        (r1.energy_consumption.lookup "carbon_capture").map (fun x => n2 / n1 * x) ∧
      r2.energy_consumption.lookup "conversion" =
        (r1.energy_consumption.lookup "conversion").map (fun x => n2 / n1 * x) ∧
      r2.energy_consumption.lookup "distribution" =
        (r1.energy_consumption.lookup "distribution").map (fun x => n2 / n1 * x) ∧
      r2.energy_consumption.lookup "electrolysis" =
        (r1.energy_consumption.lookup "electrolysis").map
          (fun x => (n2 / n1) ^ 2 * x) ∧
      r2.energy_consumption.lookup "total" =
        some (n2 / n1 * (r1.energy_consumption.lookup "carbon_capture").getD 0 +
          (n2 / n1) ^ 2 * (r1.energy_consumption.lookup "electrolysis").getD 0 +
          n2 / n1 * (r1.energy_consumption.lookup "conversion").getD 0 +
          n2 / n1 * (r1.energy_consumption.lookup "distribution").getD 0) := by
  obtain ⟨pw, fu, co2, fd, cvd, dd, ud, ccd, eld, res⟩ := s
  simp only at hcc hel hcv hdb hup
  subst hcc hel hcv hdb hup
  set k := n2 / n1 with hk
  have hn2k : n2 = k * n1 := by rw [hk]; field_simp
  unfold calculate_lca
  simp only []
  rw [hn1, hn2]
  simp only []
  refine ⟨_, _, rfl, rfl, ?_, ?_, ?_, ?_, ?_, ?_, ?_, ?_⟩
  · intro key
    simp only [List.lookup, Option.map_some']
    rcases hb1 : (key == "carbon_capture") with _ | _ <;>
      rcases hb2 : (key == "electrolysis") with _ | _ <;>
      rcases hb3 : (key == "conversion") with _ | _ <;>
      rcases hb4 : (key == "distribution") with _ | _ <;>
      rcases hb5 : (key == "use_phase") with _ | _ <;>
      rcases hb6 : (key == "total") with _ | _ <;>
      simp only [hb1, hb2, hb3, hb4, hb5, hb6, Option.map_some', Option.map_none'] <;>
      first
        | rfl
        | (congr 1; rw [hn2k]; ring)
        | (congr 1; ring)
  · intro key
    simp only [List.lookup, Option.map_some']
    rcases hb1 : (key == "carbon_capture") with _ | _ <;>
      rcases hb2 : (key == "electrolysis") with _ | _ <;>
      rcases hb3 : (key == "conversion") with _ | _ <;>
      rcases hb6 : (key == "total") with _ | _ <;>
      simp only [hb1, hb2, hb3, hb6, Option.map_some', Option.map_none'] <;>
      first
        | rfl
        | (congr 1; rw [hn2k]; ring)
        | (congr 1; ring)
  · intro key
    simp only [List.lookup, Option.map_some']
    rcases hb6 : (key == "total") with _ | _ <;>
      simp only [hb6, Option.map_some', Option.map_none'] <;>
      first
        | rfl
        | (congr 1; rw [hn2k]; ring)
        | (congr 1; ring)
  all_goals
    simp only [List.lookup, String.reduceBEq, Option.map_some', Option.getD_some]
  all_goals congr 1
  all_goals rw [hn2k]
  all_goals ring

/-- C7 witness: the amended theorem instantiated at the example parameters
with kg and L bases (factors 1 and 0.8). -/
theorem C7_unit_scaling_witness :
    ∃ r1 r2,
      calculate_lca { exampleState with functional_unit := "kg" } = Except.ok r1 ∧
      calculate_lca { exampleState with functional_unit := "L" } = Except.ok r2 ∧
      (∀ key, r2.ghg_emissions.lookup key =
        (r1.ghg_emissions.lookup key).map (fun x => 0.8 / 1 * x)) ∧
      (∀ key, r2.water_usage.lookup key =
        (r1.water_usage.lookup key).map (fun x => 0.8 / 1 * x)) ∧
      (∀ key, r2.land_use.lookup key =
        (r1.land_use.lookup key).map (fun x => 0.8 / 1 * x)) ∧
      r2.energy_consumption.lookup "carbon_capture" =
        (r1.energy_consumption.lookup "carbon_capture").map (fun x => 0.8 / 1 * x) ∧
      r2.energy_consumption.lookup "conversion" =
        (r1.energy_consumption.lookup "conversion").map (fun x => 0.8 / 1 * x) ∧
      r2.energy_consumption.lookup "distribution" =
        (r1.energy_consumption.lookup "distribution").map (fun x => 0.8 / 1 * x) ∧
      r2.energy_consumption.lookup "electrolysis" =
        (r1.energy_consumption.lookup "electrolysis").map
          (fun x => (0.8 / 1) ^ 2 * x) ∧
      r2.energy_consumption.lookup "total" =
        some (0.8 / 1 * (r1.energy_consumption.lookup "carbon_capture").getD 0 +
          (0.8 / 1) ^ 2 * (r1.energy_consumption.lookup "electrolysis").getD 0 +
          0.8 / 1 * (r1.energy_consumption.lookup "conversion").getD 0 +
          0.8 / 1 * (r1.energy_consumption.lookup "distribution").getD 0) :=
  C7_unit_scaling exampleState "kg" "L" exampleCarbonCapture exampleElectrolysis
    exampleConversion exampleDistribution exampleUsePhase 1 0.8
    rfl rfl rfl rfl rfl rfl rfl (by norm_num)

/-- C8: evaluation at the hazard input the claim requires the code to
reject: with capture_efficiency = 0 the stage formula divides by the zero
denominator 0/100 and `calculate_lca` returns normally with no validation
error (in this rational model the division yields 0; in Python the same
expression raises an unguarded ZeroDivisionError) — the fail-fast rejection
the claim describes does not exist in the code. -/
theorem C8_no_zero_efficiency_guard :
    zeroEfficiencyState.carbon_capture_data.map (fun c => c.capture_efficiency) =
      some 0 ∧
    zeroEfficiencyCapture.capture_efficiency / 100 = 0 ∧
    (∃ r, calculate_lca zeroEfficiencyState = Except.ok r ∧
      r.ghg_emissions.lookup "carbon_capture" = some 0 ∧
      r.energy_consumption.lookup "carbon_capture" = some 0 ∧
      r.water_usage.lookup "carbon_capture" = some 0) := by
  refine ⟨rfl, by norm_num [zeroEfficiencyCapture, exampleCarbonCapture], ?_⟩
  refine ⟨_, rfl, ?_, ?_, ?_⟩ <;>
    simp only [calculate_lca, zeroEfficiencyState, exampleState, zeroEfficiencyCapture,
      exampleCarbonCapture, exampleConversion, exampleElectrolysis,
      exampleDistribution, exampleUsePhase, normalization_factor,
      String.reduceEq, reduceIte] <;>
    norm_num [List.lookup, String.reduceBEq] <;>
    simp [String.reduceBEq]


/-- C9 counterexample: at the complete example state the four result
mappings are not parallel — the energy mapping has no "use_phase" entry,
the water mapping has no "distribution" or "use_phase" entry, and the
land-use mapping has no per-stage entries at all. -/
theorem C9_parallel_mappings_counterexample :
    ∃ r, calculate_lca exampleState = Except.ok r ∧
      r.energy_consumption.lookup "use_phase" = none ∧
      r.water_usage.lookup "distribution" = none ∧
      r.water_usage.lookup "use_phase" = none ∧
      r.land_use.lookup "carbon_capture" = none :=
  ⟨_, rfl, rfl, rfl, rfl, rfl⟩


/-- C9 (amended): for every complete parameter state the result mappings
have the fixed layouts: GHG holds all five stages plus "total"; energy
holds carbon_capture, electrolysis, conversion, distribution plus "total"
(no use_phase); water holds carbon_capture, electrolysis, conversion plus
"total"; land_use holds only "total". -/
theorem C9_result_layout (s : ModelState) (cc : CarbonCaptureData)
    (el : ElectrolysisData) (cv : ConversionData) (db : DistributionData)
    (up : UsePhaseData) (nf : ℚ)
    (hcc : s.carbon_capture_data = some cc) (hel : s.electrolysis_data = some el)
    (hcv : s.conversion_data = some cv) (hdb : s.distribution_data = some db)
    (hup : s.use_phase_data = some up)
    (hnf : normalization_factor s.functional_unit up.energy_density = some nf) :
    ∃ r, calculate_lca s = Except.ok r ∧
      r.ghg_emissions.map Prod.fst =
        ["carbon_capture", "electrolysis", "conversion", "distribution",
         "use_phase", "total"] ∧
      r.energy_consumption.map Prod.fst =
        ["carbon_capture", "electrolysis", "conversion", "distribution", "total"] ∧
      r.water_usage.map Prod.fst =
        ["carbon_capture", "electrolysis", "conversion", "total"] ∧
      r.land_use.map Prod.fst = ["total"] := by
  have hok : ∃ r, calculate_lca s = Except.ok r := by
    unfold calculate_lca
    rw [hcc, hel, hcv, hdb, hup]
    simp only []
    rw [hnf]
    simp only []
    exact ⟨_, rfl⟩
  obtain ⟨r, hr⟩ := hok
  obtain ⟨k1, k2, k3, k4⟩ := calculate_lca_ok_keys s r hr
  exact ⟨r, hr, k1, k2, k3, by rw [k4]; rfl⟩


/-- C9 witness: the layout theorem instantiated at the example state. -/
theorem C9_result_layout_witness :
    ∃ r, calculate_lca exampleState = Except.ok r ∧
      r.ghg_emissions.map Prod.fst =
        ["carbon_capture", "electrolysis", "conversion", "distribution",
         "use_phase", "total"] ∧
      r.energy_consumption.map Prod.fst =
        ["carbon_capture", "electrolysis", "conversion", "distribution", "total"] ∧
      r.water_usage.map Prod.fst =
        ["carbon_capture", "electrolysis", "conversion", "total"] ∧
      r.land_use.map Prod.fst = ["total"] :=
  C9_result_layout exampleState exampleCarbonCapture exampleElectrolysis
    exampleConversion exampleDistribution exampleUsePhase (1 / 43)
    rfl rfl rfl rfl rfl rfl

/-- C10: `calculate_emission_reduction` returns
(baseline − saf)/baseline × 100 where saf is the total GHG × 1000 on the MJ
basis and total GHG × 1000 / energy_density on any other basis; when the
GHG results mapping is empty it first runs a calculation and proceeds on
the updated state (propagating any calculation error); with the default
baseline 89.0 a total of 20 g CO2e/MJ yields 6900/89 ≈ 77.53 %. -/
theorem C10_emission_reduction :
    (∀ s fossil t, s.results.ghg_emissions ≠ [] →
      s.results.ghg_emissions.lookup "total" = some t →
      s.functional_unit = "MJ" →
      (calculate_emission_reduction s fossil).2 =
        Except.ok ((fossil - t * 1000) / fossil * 100)) ∧
    (∀ s fossil t up, s.results.ghg_emissions ≠ [] →
      s.results.ghg_emissions.lookup "total" = some t →
      s.functional_unit ≠ "MJ" → s.use_phase_data = some up →
      (calculate_emission_reduction s fossil).2 =
        Except.ok ((fossil - t * 1000 / up.energy_density) / fossil * 100)) ∧
    (∀ s fossil, s.results.ghg_emissions = [] →
      calculate_emission_reduction s fossil =
        (match run_calculate s with
         | (s1, Except.error e) => (s1, Except.error e)
         | (s1, Except.ok _) => calculate_emission_reduction s1 fossil)) ∧
    (∀ s t, s.results.ghg_emissions ≠ [] →
      s.results.ghg_emissions.lookup "total" = some t →
      s.functional_unit = "MJ" → t * 1000 = 20 →
      (calculate_emission_reduction_default s).2 = Except.ok (6900 / 89)) := by
  have hMJ : ∀ (s : ModelState) (fossil t : ℚ), s.results.ghg_emissions ≠ [] →
      s.results.ghg_emissions.lookup "total" = some t →
      s.functional_unit = "MJ" →
      (calculate_emission_reduction s fossil).2 =
        Except.ok ((fossil - t * 1000) / fossil * 100) := by
    intro s fossil t hne hl hmj
    simp [calculate_emission_reduction, hne, hl, hmj]
  refine ⟨hMJ, ?_, ?_, ?_⟩
  · intro s fossil t up hne hl hnot hup
    simp [calculate_emission_reduction, hne, hl, hnot, hup]
  · intro s fossil hempty
    rcases hc : calculate_lca s with e | r
    · simp [calculate_emission_reduction, run_calculate, hempty, hc]
    · have hkeys := calculate_lca_ok_keys s r hc
      have hne' : r.ghg_emissions ≠ [] := by
        intro h
        rw [h] at hkeys
        simp at hkeys
      simp [calculate_emission_reduction, run_calculate, hempty, hc, hne']
  · intro s t hne hl hmj ht
    have h := hMJ s 89 t hne hl hmj
    unfold calculate_emission_reduction_default
    rw [h, ht]
    norm_num

/-- C10 witness: on a state preloaded with a 0.02 kg CO2e/MJ total
(20 g CO2e/MJ), the default-baseline reduction is 6900/89 ≈ 77.53 %. -/
theorem C10_emission_reduction_witness :
    (calculate_emission_reduction_default preloadedResultsState).2 =
      Except.ok (6900 / 89) :=
  C10_emission_reduction.2.2.2 preloadedResultsState 0.02
    (by simp [preloadedResultsState, preloadedResults]) rfl rfl (by norm_num)
